import Mathlib

/-!
Verification development for the DataProcessor news subsystem.

Shallow embedding of `src/DataProcessor/src/search/news_feed_search.py`
(class `NewsFeedSearch`) and `src/DataProcessor/src/scrape/async_scraper.py`
(class `AsyncScraper`).  Python strings are modelled as Lean `String`;
all string operations are implemented over `String.data` (lists of
code points, matching Python's code-point-indexed strings) by structural
recursion so that every definition evaluates inside the kernel.
External effects (HTTP responses, the clock, the cache directory) are
modelled as explicit parameters; the functions return call counters so
that the number of network requests made on a path is part of the model.
-/

namespace DataProc

/-! ## String primitives (models of the Python `str` methods used) -/

/-- Split a character list at every non-overlapping occurrence of `sep`
(left to right), as Python `str.split(sep)` does.  `fuel` bounds the
recursion; callers pass `s.length + 1`. -/
def chSplit (sep : List Char) : Nat → List Char → List Char → List (List Char)
  | 0, acc, _ => [acc.reverse]
  | fuel + 1, acc, s =>
    match s with
    | [] => [acc.reverse]
    | c :: rest =>
      if sep.isPrefixOf s then
        acc.reverse :: chSplit sep fuel [] (s.drop sep.length)
      else
        chSplit sep fuel (c :: acc) rest

/-- Python `s.split(sep)` for non-empty `sep` (all uses in the source pass a
non-empty literal separator). -/
def strSplit (s sep : String) : List String :=
  if sep.data = [] then [s]
  else (chSplit sep.data (s.data.length + 1) [] s.data).map String.mk

/-- Python `sub in s` (substring containment; all uses pass non-empty `sub`). -/
def containsSub (s sub : String) : Bool :=
  (strSplit s sub).length > 1

/-- Python `sep.join(parts)`. -/
def strJoin (sep : String) : List String → String
  | [] => ""
  | [x] => x
  | x :: xs => x ++ sep ++ strJoin sep xs

/-- Python `s.replace(old, new)`, which equals `new.join(s.split(old))`. -/
def strReplace (s old new : String) : String :=
  strJoin new (strSplit s old)

/-- Python `len(s)` (code points). -/
def strLen (s : String) : Nat := s.data.length

/-- Python `s[:n]` (code points). -/
def strTake (s : String) (n : Nat) : String := String.mk (s.data.take n)

/-- Python `s[n:]` (code points). -/
def strDrop (s : String) (n : Nat) : String := String.mk (s.data.drop n)

/-- Python `s.lower()` for the ASCII range used by the date formats. -/
def strLower (s : String) : String := String.mk (s.data.map Char.toLower)

/-- Python `s.strip()`: remove leading and trailing whitespace. -/
def strStrip (s : String) : String :=
  String.mk (((s.data.dropWhile Char.isWhitespace).reverse.dropWhile
    Char.isWhitespace).reverse)

/-- Python `int(s)` on an all-digit string, `none` otherwise (the strict
digit-sequence reading used by `strptime` field matching). -/
def digitsToNat : List Char → Option Nat
  | [] => none
  | cs => go cs 0
where
  go : List Char → Nat → Option Nat
    | [], acc => some acc
    | c :: rest, acc =>
      if c.isDigit then go rest (acc * 10 + (c.toNat - '0'.toNat))
      else none

/-- Numeric value of an all-digit string. -/
def strToNat (s : String) : Option Nat := digitsToNat s.data

/-! ## Calendar dates (model of `datetime.date`) -/

/-- A Python `datetime.date` value (already validated on construction). -/
structure Date where
  year : Nat
  month : Nat
  day : Nat
deriving DecidableEq, Repr

/-- Python `date` comparison: lexicographic on (year, month, day). -/
def Date.le (a b : Date) : Bool :=
  a.year < b.year ||
    (a.year = b.year &&
      (a.month < b.month || (a.month = b.month && a.day ≤ b.day)))

/-- Gregorian leap year, as `datetime` uses. -/
def isLeap (y : Nat) : Bool :=
  (y % 4 = 0 && y % 100 ≠ 0) || y % 400 = 0

/-- Days in a month, as `datetime` validates. -/
def daysInMonth (y m : Nat) : Nat :=
  if m = 2 then (if isLeap y then 29 else 28)
  else if m = 4 || m = 6 || m = 9 || m = 11 then 30
  else 31

/-- `datetime.date(y, m, d)` succeeds exactly on these triples. -/
def validDate (y m d : Nat) : Bool :=
  1 ≤ y && y ≤ 9999 && 1 ≤ m && m ≤ 12 && 1 ≤ d && d ≤ daysInMonth y m

/-- Zero-pad a number to two digits, as `date.isoformat` does. -/
def pad2 (n : Nat) : String :=
  if n < 10 then "0" ++ toString n else toString n

/-- Zero-pad a year to four digits, as `date.isoformat` does. -/
def pad4 (n : Nat) : String :=
  if n < 10 then "000" ++ toString n
  else if n < 100 then "00" ++ toString n
  else if n < 1000 then "0" ++ toString n
  else toString n

/-- Python `date.isoformat()`: `YYYY-MM-DD`. -/
def Date.isoformat (d : Date) : String :=
  pad4 d.year ++ "-" ++ pad2 d.month ++ "-" ++ pad2 d.day

/-! ## Date parsing (news_feed_search.py lines 171-183)

`search_news` tries `datetime.strptime(s, "%a, %d %b %Y %H:%M:%S %Z")`
first and, on failure, `datetime.fromisoformat(s.replace('Z', '+00:00'))`;
both results are reduced to a calendar date with `.date()`. -/

/-- `%b`: abbreviated month name, case-insensitive. -/
def monthNum (m : String) : Option Nat :=
  match strLower m with
  | "jan" => some 1 | "feb" => some 2 | "mar" => some 3 | "apr" => some 4
  | "may" => some 5 | "jun" => some 6 | "jul" => some 7 | "aug" => some 8
  | "sep" => some 9 | "oct" => some 10 | "nov" => some 11 | "dec" => some 12
  | _ => none

/-- `%a` followed by the literal comma, case-insensitive. -/
def weekdayTokenOk (w : String) : Bool :=
  ["mon,", "tue,", "wed,", "thu,", "fri,", "sat,", "sun,"].contains (strLower w)

/-- `%Z`: a recognized timezone name (the feed uses `GMT`). -/
def tzTokenOk (t : String) : Bool :=
  ["gmt", "utc", "ut"].contains (strLower t)

/-- A 1-2 digit field whose value is at most `bound` (strptime numeric field). -/
def fieldLE (s : String) (bound : Nat) : Bool :=
  1 ≤ strLen s && strLen s ≤ 2 &&
    (match strToNat s with
     | some n => n ≤ bound
     | none => false)

/-- `%H:%M:%S` as matched by `strptime` (seconds admit leap seconds). -/
def validHMS822 (t : String) : Bool :=
  match strSplit t ":" with
  | [h, m, s] => fieldLE h 23 && fieldLE m 59 && fieldLE s 61
  | _ => false

/-- `datetime.strptime(s, "%a, %d %b %Y %H:%M:%S %Z").date()`:
`none` models the `ValueError` path. -/
def parseRFC822 (s : String) : Option Date :=
  match strSplit s " " with
  | [wd, dd, mon, yy, hms, tz] =>
    if weekdayTokenOk wd && tzTokenOk tz && validHMS822 hms &&
        1 ≤ strLen dd && strLen dd ≤ 2 && 1 ≤ strLen yy && strLen yy ≤ 4 then
      match strToNat dd, monthNum mon, strToNat yy with
      | some d, some m, some y =>
        if validDate y m d then some ⟨y, m, d⟩ else none
      | _, _, _ => none
    else none
  | _ => none

/-- An exactly-two-digit field at most `bound` (`fromisoformat` fields). -/
def iso2LE (s : String) (bound : Nat) : Bool :=
  strLen s = 2 && s.data.all Char.isDigit &&
    (match strToNat s with
     | some n => n ≤ bound
     | none => false)

/-- Strict `YYYY-MM-DD` as `fromisoformat` requires for the date part. -/
def parseISODateOnly (s : String) : Option Date :=
  match strSplit s "-" with
  | [y, m, d] =>
    if strLen y = 4 && y.data.all Char.isDigit && iso2LE m 12 && iso2LE d 31 then
      match strToNat y, strToNat m, strToNat d with
      | some yy, some mm, some dd =>
        if validDate yy mm dd then some ⟨yy, mm, dd⟩ else none
      | _, _, _ => none
    else none
  | _ => none

/-- Fractional seconds: exactly 3 or 6 digits. -/
def validFrac (f : String) : Bool :=
  (strLen f = 3 || strLen f = 6) && f.data.all Char.isDigit

/-- `HH[:MM[:SS[.fff[fff]]]]` as `fromisoformat` accepts. -/
def validHMSIso (t : String) : Bool :=
  match strSplit t ":" with
  | [h] => iso2LE h 23
  | [h, m] => iso2LE h 23 && iso2LE m 59
  | [h, m, s] =>
    iso2LE h 23 && iso2LE m 59 &&
      (match strSplit s "." with
       | [ss] => iso2LE ss 59
       | [ss, f] => iso2LE ss 59 && validFrac f
       | _ => false)
  | _ => false

/-- Time-of-day with an optional `+HH:MM`/`-HH:MM` style UTC offset. -/
def validISOTime (t : String) : Bool :=
  match strSplit t "+" with
  | [base] =>
    (match strSplit base "-" with
     | [b] => validHMSIso b
     | [b, off] => validHMSIso b && validHMSIso off
     | _ => false)
  | [base, off] => validHMSIso base && validHMSIso off
  | _ => false

/-- `datetime.fromisoformat(s.replace('Z', '+00:00')).date()`: a 10-char
date, or a date plus one separator character and a valid time. -/
def parseISO (s0 : String) : Option Date :=
  let s := strReplace s0 "Z" "+00:00"
  if strLen s = 10 then parseISODateOnly s
  else if 12 ≤ strLen s then
    match parseISODateOnly (strTake s 10) with
    | some d => if validISOTime (strDrop s 11) then some d else none
    | none => none
  else none

/-- The two-stage date parse applied to `publish_date` strings in
`search_news` (lines 171-183): RFC-822 style first, ISO second; `none`
models the fall-through to the fail-open branch. -/
def parsePubDate (s : String) : Option Date :=
  match parseRFC822 s with
  | some d => some d
  | none => parseISO s

/-! ## Article stubs and the feed client (news_feed_search.py lines 253-329) -/

/-- The dictionary built per feed entry by `_search_google_news`
(lines 316-323). -/
structure Article where
  title : String
  link : String
  source : String
  publish_date : String
  authors : List String
  snippet : String
deriving DecidableEq, Repr

/-- One `feedparser` entry as consumed by the mapping loop: `title`,
`link`, `published`, the nested `source.title`, the description after
BeautifulSoup has reduced it to text, and `author` (each `""` when the
feed omits the field, matching the `entry.get(_, "")` defaults). -/
structure RawEntry where
  title : String
  link : String
  published : String
  sourceTitle : String
  descriptionText : String
  author : String
deriving DecidableEq, Repr

/-- Lines 292-323: normalize one entry.  When the structured source is
missing, the source is split off the title at the last `" - "`; the
description is stripped; `author` becomes a singleton list when
non-empty. -/
def normalizeEntry (e : RawEntry) : Article :=
  let (title, source) :=
    if e.sourceTitle ≠ "" then (e.title, e.sourceTitle)
    else
      let parts := strSplit e.title " - "
      if parts.length > 1 then
        (strJoin " - " parts.dropLast, parts.getLastD "")
      else (e.title, e.sourceTitle)
  let description :=
    if e.descriptionText ≠ "" then strStrip e.descriptionText
    else e.descriptionText
  { title := title
    link := e.link
    source := source
    publish_date := e.published
    authors := if e.author ≠ "" then [e.author] else []
    snippet := description }

/-- What the single upstream HTTP GET plus `feedparser.parse` produced:
a network/timeout failure, an exception while parsing or mapping the
body, or a status code with the parsed entries. -/
inductive FeedOutcome where
  | netError
  | parseError
  | response (status : Nat) (entries : List RawEntry)
deriving DecidableEq

/-- `_search_google_news` (lines 253-329): the enclosing `try` turns any
failure into `[]`; a non-200 status returns `[]`; otherwise each entry is
normalized. -/
def search_google_news (feed : FeedOutcome) : List Article :=
  match feed with
  | .netError => []
  | .parseError => []
  | .response status entries =>
    if status ≠ 200 then [] else entries.map normalizeEntry

/-! ## Cache store (news_feed_search.py lines 379-448) -/

/-- One file in the cache directory: its mtime and its decoded JSON
content (`none` when the file cannot be read or decoded). -/
structure CacheFile where
  mtime : Nat
  content : Option (List Article)
deriving DecidableEq

/-- The cache directory: key (file stem) to file. -/
def Cache : Type := String → Option CacheFile

/-- `_generate_cache_key` (lines 379-394): the pre-hash key string
`f"{query}_{topic}_{from_date.isoformat()}_{to_date.isoformat()}"`.
The subsequent md5 digest maps equal strings to equal file names, so the
key string itself stands for the key. -/
def generate_cache_key (query : String) (topic : Option String)
    (fromD toD : Date) : String :=
  query ++ "_" ++ (match topic with | none => "None" | some t => t) ++ "_" ++
    fromD.isoformat ++ "_" ++ toD.isoformat

/-- `_get_from_cache` (lines 396-425): `none` when the file is missing,
when `time.time() - mtime > cache_expiry`, or when reading/decoding
fails; otherwise the decoded list. -/
def get_from_cache (expiry now : Nat) (cache : Cache) (k : String) :
    Option (List Article) :=
  match cache k with
  | none => none
  | some f => if now - f.mtime > expiry then none else f.content

/-- `_save_to_cache` (lines 427-448): overwrite the file for `k` with the
serialized results; the file's mtime becomes the current time. -/
def save_to_cache (now : Nat) (cache : Cache) (k : String)
    (results : List Article) : Cache :=
  fun k' => if k' = k then some ⟨now, some results⟩ else cache k'

/-! ## Redirect resolution (news_feed_search.py lines 331-377) -/

/-- The non-following HTTP GET issued by `_extract_real_url`: an
exception, or a status code with the optional `Location` header. -/
inductive RedirectOutcome where
  | err
  | resp (status : Nat) (location : Option String)
deriving DecidableEq

/-- `urlparse(u).query`: the part after the first `?` of the text before
the first `#`. -/
def urlQuery (u : String) : String :=
  let beforeFrag := (strSplit u "#").headD u
  match strSplit beforeFrag "?" with
  | [] => ""
  | [_] => ""
  | _ :: rest => strJoin "?" rest

/-- `_extract_real_url` (lines 350-377).  Returns the resolved URL and
the number of network calls made (0 on the embedded-parameter path, 1
otherwise).  `redirect` gives the response of the non-following GET. -/
def extract_real_url (redirect : String → RedirectOutcome)
    (google_url : String) : String × Nat :=
  let q := urlQuery google_url
  if containsSub q "url=" then
    (((strSplit ((strSplit q "url=").getD 1 "") "&").headD ""), 0)
  else
    match redirect google_url with
    | .err => (google_url, 1)
    | .resp status location =>
      if status = 301 || status = 302 then
        match location with
        | some l => if l ≠ "" then (l, 1) else (google_url, 1)
        | none => (google_url, 1)
      else (google_url, 1)

/-- Lines 230-244: one stub of the truncated result list.  A link on the
redirect domain is resolved and substituted when the resolved value is
non-empty; other links are untouched.  The second component counts
network calls. -/
def resolveArticle (redirect : String → RedirectOutcome) (a : Article) :
    Article × Nat :=
  if containsSub a.link "news.google.com" then
    let r := (extract_real_url redirect a.link).1
    let c := (extract_real_url redirect a.link).2
    (if r ≠ "" then { a with link := r } else a, c)
  else (a, 0)

/-- `_batch_resolve_urls` applied over the truncated results
(lines 227-244): every matching stub gets one resolution task. -/
def resolveBatch (redirect : String → RedirectOutcome)
    (articles : List Article) : List Article × Nat :=
  let pairs := articles.map (resolveArticle redirect)
  (pairs.map Prod.fst, (pairs.map Prod.snd).sum)

/-! ## Date filter, sort, and the search pipeline
(news_feed_search.py lines 84-251) -/

/-- The per-article decision of the filter loop (lines 163-217): keep on
parse failure (fail-open), otherwise keep exactly when
`from_date <= pub_date <= to_date`. -/
def dateInRange (fromD toD : Date) (s : String) : Bool :=
  match parsePubDate s with
  | none => true
  | some d => Date.le fromD d && Date.le d toD

/-- The date-filter loop. -/
def filterByDate (fromD toD : Date) (articles : List Article) :
    List Article :=
  articles.filter (fun a => dateInRange fromD toD a.publish_date)

/-- Stable insert for `insertionSortStable`. -/
def stableInsert (le : α → α → Bool) (x : α) : List α → List α
  | [] => [x]
  | y :: ys => if le x y then x :: y :: ys else y :: stableInsert le x ys

/-- A stable sort by the boolean total preorder `le`.  Python's `sorted`
is stable, and a stable sort's output is uniquely determined by the
input order and the preorder, so this models `sorted(..., key=...,
reverse=True)` exactly once `le` encodes the reversed key comparison. -/
def insertionSortStable (le : α → α → Bool) : List α → List α
  | [] => []
  | x :: xs => stableInsert le x (insertionSortStable le xs)

/-- Lines 220-225: `sorted(filtered, key=lambda x: x.get("publish_date",
""), reverse=True)` — descending, string-lexicographic, stable. -/
def sortByDateDesc (articles : List Article) : List Article :=
  insertionSortStable
    (fun a b => decide (b.publish_date ≤ a.publish_date)) articles

/-- The value bound to `cached_results` before the truthiness test at
line 151: the cache read when `use_cache`, with `None` and a decode
failure both collapsing to the empty list (both are falsy, as `[]` is). -/
def cacheLookup (expiry : Nat) (use_cache : Bool) (now : Nat)
    (cache : Cache) (k : String) : List Article :=
  if use_cache then (get_from_cache expiry now cache k).getD [] else []

/-- What one `search_news` call produced: the returned stubs, the cache
directory afterwards, and how many feed requests and redirect-resolution
network calls were made. -/
structure SearchOutcome where
  results : List Article
  cache : Cache
  feedCalls : Nat
  resolveCalls : Nat

/-- The cache-miss path of `search_news` (lines 155-251): one feed
request, date filtering, the descending stable sort on the raw date
string, truncation to `max_results`, optional redirect resolution of the
truncated list, and (when `use_cache`) the unconditional cache write of
the final list. -/
def search_fresh (key : String) (fromD toD : Date) (max_results : Nat)
    (resolve_urls use_cache : Bool) (feed : FeedOutcome)
    (redirect : String → RedirectOutcome) (now : Nat) (cache : Cache) :
    SearchOutcome :=
  let google_results := search_google_news feed
  let filtered := filterByDate fromD toD google_results
  let sorted_results := (sortByDateDesc filtered).take max_results
  let resolved :=
    if resolve_urls then (resolveBatch redirect sorted_results).1
    else sorted_results
  let rcalls :=
    if resolve_urls then (resolveBatch redirect sorted_results).2 else 0
  let cache' :=
    if use_cache then save_to_cache now cache key resolved else cache
  { results := resolved
    cache := cache'
    feedCalls := 1
    resolveCalls := rcalls }

/-- `search_news` (lines 84-251), after the from/to date normalization,
as a function of the feed response, the redirect responses, the clock
and the cache directory.  On a truthy cache hit the cached list is
truncated and returned with no network call; otherwise the cache-miss
path `search_fresh` runs. -/
def search_news (expiry : Nat) (query : String) (topic : Option String)
    (fromD toD : Date) (max_results : Nat)
    (resolve_urls use_cache : Bool) (feed : FeedOutcome)
    (redirect : String → RedirectOutcome) (now : Nat) (cache : Cache) :
    SearchOutcome :=
  let key := generate_cache_key query topic fromD toD
  let cached := cacheLookup expiry use_cache now cache key
  if cached ≠ [] then
    { results := cached.take max_results
      cache := cache
      feedCalls := 0
      resolveCalls := 0 }
  else
    search_fresh key fromD toD max_results resolve_urls use_cache feed
      redirect now cache

/-! ## Concurrent fetcher (async_scraper.py lines 36-162)

The retry loop of `scrape_url` is driven by what each attempt's HTTP
round trip and extraction produced; an oracle `Nat → AttemptOutcome`
records that per attempt number.  Sleeps and header rotation have no
effect on the returned value and are not modelled. -/

/-- The extracted record built by `_parse_with_newspaper` (always
returned, never raised: the function catches internally).  Only the
fields the retry loop inspects are kept. -/
structure RawArticle where
  url : String
  content : String
deriving DecidableEq, Repr

/-- One attempt's observable outcome: a `ClientError`/`TimeoutError`
from the GET, or a status code together with the article that parsing
the body produced. -/
inductive AttemptOutcome where
  | netErr
  | resp (status : Nat) (article : RawArticle)
deriving DecidableEq, Repr

/-- The body of the `for attempt in range(retry_count + 1)` loop of
`scrape_url` (lines 104-162), structurally recursive on the remaining
iterations.  Non-200 and connection errors retry below the last attempt
and fail terminally on it; content shorter than 200 characters retries
below the last attempt and is returned as-is on it. -/
def scrapeGo (retry_count : Nat) (oracle : Nat → AttemptOutcome) :
    Nat → Nat → Option RawArticle
  | _, 0 => none
  | attempt, fuel + 1 =>
    match oracle attempt with
    | .netErr =>
      if attempt < retry_count then
        scrapeGo retry_count oracle (attempt + 1) fuel
      else none
    | .resp status article =>
      if status ≠ 200 then
        if attempt < retry_count then
          scrapeGo retry_count oracle (attempt + 1) fuel
        else none
      else if strLen article.content < 200 ∧ attempt < retry_count then
        scrapeGo retry_count oracle (attempt + 1) fuel
      else some article

/-- `scrape_url` (lines 92-162): run the loop from attempt 0. -/
def scrape_url (retry_count : Nat) (oracle : Nat → AttemptOutcome) :
    Option RawArticle :=
  scrapeGo retry_count oracle 0 (retry_count + 1)

/-- `scrape_urls` (lines 53-90): one task per URL, then failures are
dropped from the gathered results (not null-padded). -/
def scrape_urls (retry_count : Nat)
    (oracles : List (Nat → AttemptOutcome)) : List RawArticle :=
  (oracles.map (scrape_url retry_count)).filterMap id

/-- Modelled from the spec's retry rules (and the claim's wording): the
attempt with index `i` succeeds when it returns HTTP 200 and the
extracted content is either at least 200 characters long or this is the
final attempt. -/
def attemptSucceedsSpec (retry_count : Nat)
    (oracle : Nat → AttemptOutcome) (i : Nat) : Prop :=
  ∃ article, oracle i = .resp 200 article ∧
    (200 ≤ strLen article.content ∨ i = retry_count)

/-- The feed-retrieval failure modes named by the error-handling policy:
a network error, an exception during parsing/mapping, or a non-200
status. -/
def feedRetrievalFails : FeedOutcome → Bool
  | .netError => true
  | .parseError => true
  | .response s _ => s ≠ 200

/-! ## Concrete inputs used by witnesses and counterexamples -/

/-- An empty cache directory. -/
def emptyCache : Cache := fun _ => none

/-- A redirect endpoint whose every GET raises. -/
def redir0 : String → RedirectOutcome := fun _ => .err

/-- A redirect endpoint answering 302 with a `Location` header. -/
def redir302 : String → RedirectOutcome :=
  fun _ => .resp 302 (some "https://dest.example/a")

/-- A feed entry dated 2025-01-10. -/
def entryJan10 : RawEntry := ⟨"t", "l", "2025-01-10", "s", "d", ""⟩

/-- 2025-01-01. -/
def d0101 : Date := ⟨2025, 1, 1⟩

/-- 2025-01-02. -/
def d0102 : Date := ⟨2025, 1, 2⟩

/-- 2025-01-31. -/
def d0131 : Date := ⟨2025, 1, 31⟩

/-- First call of the empty-feed scenario: empty cache, feed answers 200
with zero entries. -/
def cexSearch1 : SearchOutcome :=
  search_news 3600 "q" none d0101 d0102 10 false true (.response 200 [])
    redir0 0 emptyCache

/-- Second call of the empty-feed scenario, immediately after the first
(no TTL expiry), identical criteria, starting from the first call's
cache. -/
def cexSearch2 : SearchOutcome :=
  search_news 3600 "q" none d0101 d0102 10 false true (.response 200 [])
    redir0 0 cexSearch1.cache

/-- First call of the non-empty scenario: empty cache, feed answers 200
with one in-range entry. -/
def witSearch1 : SearchOutcome :=
  search_news 3600 "q" none d0101 d0131 10 false true
    (.response 200 [entryJan10]) redir0 0 emptyCache

/-- Second call of the non-empty scenario, 100 seconds later, identical
criteria, starting from the first call's cache. -/
def witSearch2 : SearchOutcome :=
  search_news 3600 "q" none d0101 d0131 10 false true
    (.response 200 [entryJan10]) redir0 100 witSearch1.cache

/-- A short extracted article. -/
def witArticle : RawArticle := ⟨"u", ""⟩

/-- An oracle whose every attempt answers 200 with a short article. -/
def witOracle : Nat → AttemptOutcome := fun _ => .resp 200 witArticle

/-- A stub as stored in the cache. -/
def stubArticle : Article := ⟨"t", "l", "s", "2025-01-10", [], "d"⟩

/-- A cache whose entry for the (q, none, d0101, d0102) key was written
at time 0 and holds one stub. -/
def staleCache : Cache := fun k =>
  if k = generate_cache_key "q" none d0101 d0102 then
    some ⟨0, some [stubArticle]⟩
  else none

/-- A cache whose entry for the (q, none, d0101, d0102) key was written
at time 0 and holds the empty list. -/
def emptyEntryCache : Cache := fun k =>
  if k = generate_cache_key "q" none d0101 d0102 then some ⟨0, some []⟩
  else none

/-- A feed-redirect link carrying an embedded url parameter. -/
def uEmb : String := "https://news.google.com/a?url=https://x.com&b=1"

/-- A feed-redirect link without an embedded url parameter. -/
def uNoParam : String := "https://news.google.com/rss/articles/abc"

/-! ## Shared lemmas -/

/-- The filter's per-article test, unfolded into the claim's disjunction:
unparseable date, or parsed date inside the inclusive window. -/
theorem dateInRange_iff (fromD toD : Date) (s : String) :
    dateInRange fromD toD s = true ↔
      parsePubDate s = none ∨
        ∃ d, parsePubDate s = some d ∧
          Date.le fromD d = true ∧ Date.le d toD = true := by
  unfold dateInRange
  cases h : parsePubDate s with
  | none => simp
  | some d => simp [h, Bool.and_eq_true]

theorem mem_stableInsert {α : Type} (le : α → α → Bool) (x a : α)
    (l : List α) : a ∈ stableInsert le x l ↔ a = x ∨ a ∈ l := by
  induction l with
  | nil => simp [stableInsert]
  | cons y ys ih =>
    simp only [stableInsert]
    split
    · simp [List.mem_cons]
    · simp only [List.mem_cons, ih]
      tauto

theorem mem_insertionSortStable {α : Type} (le : α → α → Bool) (a : α)
    (l : List α) : a ∈ insertionSortStable le l ↔ a ∈ l := by
  induction l with
  | nil => simp [insertionSortStable]
  | cons x xs ih =>
    simp [insertionSortStable, mem_stableInsert, ih, List.mem_cons]

theorem mem_sortByDateDesc (a : Article) (l : List Article) :
    a ∈ sortByDateDesc l ↔ a ∈ l := by
  unfold sortByDateDesc
  exact mem_insertionSortStable _ a l

/-- Redirect resolution rewrites only the link. -/
theorem resolveArticle_publish_date (redirect : String → RedirectOutcome)
    (a : Article) :
    ((resolveArticle redirect a).1).publish_date = a.publish_date := by
  unfold resolveArticle
  split
  · dsimp only
    split <;> rfl
  · rfl

theorem resolveBatch_length (redirect : String → RedirectOutcome)
    (l : List Article) : ((resolveBatch redirect l).1).length = l.length := by
  simp [resolveBatch]

theorem mem_resolveBatch (redirect : String → RedirectOutcome)
    (l : List Article) (b : Article)
    (h : b ∈ (resolveBatch redirect l).1) :
    ∃ a, a ∈ l ∧ b = (resolveArticle redirect a).1 := by
  simp only [resolveBatch, List.map_map] at h
  obtain ⟨a, ha, hab⟩ := List.mem_map.mp h
  exact ⟨a, ha, hab.symm⟩

/-- A truthy cache hit returns the truncated cached list and touches
neither the network nor the cache. -/
theorem search_news_hit_eq (expiry : Nat) (query : String)
    (topic : Option String) (fromD toD : Date) (max_results : Nat)
    (resolve_urls use_cache : Bool) (feed : FeedOutcome)
    (redirect : String → RedirectOutcome) (now : Nat) (cache : Cache)
    (h : cacheLookup expiry use_cache now cache
      (generate_cache_key query topic fromD toD) ≠ []) :
    search_news expiry query topic fromD toD max_results resolve_urls
        use_cache feed redirect now cache =
      { results := (cacheLookup expiry use_cache now cache
          (generate_cache_key query topic fromD toD)).take max_results
        cache := cache
        feedCalls := 0
        resolveCalls := 0 } := by
  unfold search_news
  simp [h]

/-- A falsy cache read (missing, expired, unreadable, or an empty cached
list) takes the fresh-fetch path. -/
theorem search_news_miss_eq (expiry : Nat) (query : String)
    (topic : Option String) (fromD toD : Date) (max_results : Nat)
    (resolve_urls use_cache : Bool) (feed : FeedOutcome)
    (redirect : String → RedirectOutcome) (now : Nat) (cache : Cache)
    (h : cacheLookup expiry use_cache now cache
      (generate_cache_key query topic fromD toD) = []) :
    search_news expiry query topic fromD toD max_results resolve_urls
        use_cache feed redirect now cache =
      search_fresh (generate_cache_key query topic fromD toD) fromD toD
        max_results resolve_urls use_cache feed redirect now cache := by
  unfold search_news
  simp [h]

theorem search_fresh_feedCalls (key : String) (fromD toD : Date)
    (max_results : Nat) (resolve_urls use_cache : Bool)
    (feed : FeedOutcome) (redirect : String → RedirectOutcome) (now : Nat)
    (cache : Cache) :
    (search_fresh key fromD toD max_results resolve_urls use_cache feed
      redirect now cache).feedCalls = 1 := rfl

theorem search_fresh_length_le (key : String) (fromD toD : Date)
    (max_results : Nat) (resolve_urls use_cache : Bool)
    (feed : FeedOutcome) (redirect : String → RedirectOutcome) (now : Nat)
    (cache : Cache) :
    (search_fresh key fromD toD max_results resolve_urls use_cache feed
      redirect now cache).results.length ≤ max_results := by
  unfold search_fresh
  cases resolve_urls <;>
    simp [resolveBatch_length, List.length_take]

/-- Every stub produced by the fresh path passes the date filter. -/
theorem search_fresh_dateOK (key : String) (fromD toD : Date)
    (max_results : Nat) (resolve_urls use_cache : Bool)
    (feed : FeedOutcome) (redirect : String → RedirectOutcome) (now : Nat)
    (cache : Cache) :
    ∀ a ∈ (search_fresh key fromD toD max_results resolve_urls use_cache
      feed redirect now cache).results,
      dateInRange fromD toD a.publish_date = true := by
  intro a ha
  have base : ∀ b : Article,
      b ∈ (sortByDateDesc (filterByDate fromD toD
        (search_google_news feed))).take max_results →
      dateInRange fromD toD b.publish_date = true := by
    intro b hb
    have hb' := List.take_subset _ _ hb
    have hb'' := (mem_sortByDateDesc b _).mp hb'
    exact (List.mem_filter.mp hb'').2
  unfold search_fresh at ha
  cases hru : resolve_urls with
  | false =>
    simp only [hru, if_neg Bool.false_ne_true] at ha
    exact base a ha
  | true =>
    simp only [hru, if_pos rfl] at ha
    obtain ⟨b, hb, hab⟩ := mem_resolveBatch _ _ _ ha
    rw [hab, resolveArticle_publish_date]
    exact base b hb

/-- With caching on, the fresh path overwrites the entry for the key
with the returned list, stamped with the current time. -/
theorem search_fresh_cache_write (key : String) (fromD toD : Date)
    (max_results : Nat) (resolve_urls : Bool) (feed : FeedOutcome)
    (redirect : String → RedirectOutcome) (now : Nat) (cache : Cache) :
    (search_fresh key fromD toD max_results resolve_urls true feed
        redirect now cache).cache key =
      some ⟨now, some (search_fresh key fromD toD max_results resolve_urls
        true feed redirect now cache).results⟩ := by
  unfold search_fresh save_to_cache
  simp

/-- The retry loop returns a value exactly when some attempt in the
remaining window succeeds under the retry rules. -/
theorem scrapeGo_isSome_iff (rc : Nat) (o : Nat → AttemptOutcome) :
    ∀ fuel attempt, attempt + fuel = rc + 1 →
      ((scrapeGo rc o attempt fuel).isSome = true ↔
        ∃ i, attempt ≤ i ∧ i ≤ rc ∧ attemptSucceedsSpec rc o i) := by
  intro fuel
  induction fuel with
  | zero =>
    intro attempt h
    constructor
    · intro hs
      simp [scrapeGo] at hs
    · rintro ⟨i, h1, h2, -⟩
      omega
  | succ fuel ih =>
    intro attempt h
    have hle : attempt ≤ rc := by omega
    rw [scrapeGo]
    cases ho : o attempt with
    | netErr =>
      dsimp only
      by_cases hlt : attempt < rc
      · rw [if_pos hlt, ih (attempt + 1) (by omega)]
        constructor
        · rintro ⟨i, h1, h2, hs⟩
          exact ⟨i, by omega, h2, hs⟩
        · rintro ⟨i, h1, h2, hs⟩
          rcases Nat.eq_or_lt_of_le h1 with heq | hlt2
          · obtain ⟨art, ha, -⟩ := hs
            rw [← heq, ho] at ha
            exact (AttemptOutcome.noConfusion ha)
          · exact ⟨i, by omega, h2, hs⟩
      · rw [if_neg hlt]
        simp only [Option.isSome_none, Bool.false_eq_true, false_iff]
        rintro ⟨i, h1, h2, art, ha, -⟩
        have hi : i = attempt := by omega
        rw [hi, ho] at ha
        exact (AttemptOutcome.noConfusion ha)
    | resp s art =>
      dsimp only
      by_cases hs200 : s ≠ 200
      · rw [if_pos hs200]
        by_cases hlt : attempt < rc
        · rw [if_pos hlt, ih (attempt + 1) (by omega)]
          constructor
          · rintro ⟨i, h1, h2, hs⟩
            exact ⟨i, by omega, h2, hs⟩
          · rintro ⟨i, h1, h2, hs⟩
            rcases Nat.eq_or_lt_of_le h1 with heq | hlt2
            · obtain ⟨art', ha, -⟩ := hs
              rw [← heq, ho] at ha
              injection ha with hs' _
              exact absurd hs' hs200
            · exact ⟨i, by omega, h2, hs⟩
        · rw [if_neg hlt]
          simp only [Option.isSome_none, Bool.false_eq_true, false_iff]
          rintro ⟨i, h1, h2, art', ha, -⟩
          have hi : i = attempt := by omega
          rw [hi, ho] at ha
          injection ha with hs' _
          exact absurd hs' hs200
      · rw [if_neg hs200]
        push_neg at hs200
        by_cases hshort : strLen art.content < 200 ∧ attempt < rc
        · rw [if_pos hshort, ih (attempt + 1) (by omega)]
          constructor
          · rintro ⟨i, h1, h2, hs⟩
            exact ⟨i, by omega, h2, hs⟩
          · rintro ⟨i, h1, h2, hs⟩
            rcases Nat.eq_or_lt_of_le h1 with heq | hlt2
            · obtain ⟨art', ha, hor⟩ := hs
              rw [← heq, ho] at ha
              injection ha with _ hart
              rcases hor with hlen | hfin
              · rw [hart] at hshort
                omega
              · rw [← heq] at hfin
                omega
            · exact ⟨i, by omega, h2, hs⟩
        · rw [if_neg hshort]
          simp only [Option.isSome_some, true_iff]
          refine ⟨attempt, Nat.le_refl _, hle, art, by rw [ho, hs200], ?_⟩
          by_cases hlen : 200 ≤ strLen art.content
          · exact Or.inl hlen
          · refine Or.inr ?_
            omega

/-! ## Claims -/

/-- C10: the cache key concatenates query, topic and the two dates with
an unescaped underscore before hashing, so the distinct parameter pairs
(query `a_b`, topic `c`) and (query `a`, topic `b_c`) over one date
window already collide at the key-string stage and therefore share one
cache entry. -/
theorem cache_key_collision :
    generate_cache_key "a_b" (some "c") d0101 d0102 =
        generate_cache_key "a" (some "b_c") d0101 d0102 ∧
      ("a_b", (some "c" : Option String)) ≠
        ("a", (some "b_c" : Option String)) :=
  ⟨by decide, by decide⟩

/-- C5: the cache read returns absent exactly when the file is missing,
unreadable/undecodable, or older than the TTL; and on an expired entry a
search with that key performs a fresh upstream fetch. -/
theorem cache_get_absent_iff (expiry now : Nat) (cache : Cache)
    (k : String) :
    (get_from_cache expiry now cache k = none ↔
      cache k = none ∨
        ∃ f, cache k = some f ∧
          (f.content = none ∨ now - f.mtime > expiry)) ∧
    (∀ (query : String) (topic : Option String) (fromD toD : Date)
        (max_results : Nat) (resolve_urls : Bool) (feed : FeedOutcome)
        (redirect : String → RedirectOutcome) (f : CacheFile),
      cache (generate_cache_key query topic fromD toD) = some f →
      now - f.mtime > expiry →
      (search_news expiry query topic fromD toD max_results resolve_urls
        true feed redirect now cache).feedCalls = 1) := by
  constructor
  · unfold get_from_cache
    cases hc : cache k with
    | none => simp
    | some f =>
      by_cases hexp : now - f.mtime > expiry
      · simp [hexp]
      · simp [hexp]
  · intro query topic fromD toD max_results resolve_urls feed redirect f
      hf hexp
    have hmiss : cacheLookup expiry true now cache
        (generate_cache_key query topic fromD toD) = [] := by
      unfold cacheLookup get_from_cache
      simp [hf, hexp]
    rw [search_news_miss_eq expiry query topic fromD toD max_results
      resolve_urls true feed redirect now cache hmiss]
    exact search_fresh_feedCalls _ _ _ _ _ _ _ _ _ _

/-- Witness for C5: the empty cache misses, and a cache whose entry is
1400 seconds past its 3600-second TTL triggers a feed request. -/
theorem cache_get_absent_iff_witness :
    get_from_cache 3600 0 emptyCache "k" = none ∧
    (search_news 3600 "q" none d0101 d0102 10 false true
      (.response 200 []) redir0 5000 staleCache).feedCalls = 1 := by
  constructor
  · exact (cache_get_absent_iff 3600 0 emptyCache "k").1.mpr
      (Or.inl rfl)
  · exact (cache_get_absent_iff 3600 5000 staleCache "k").2 "q" none
      d0101 d0102 10 false (.response 200 []) redir0
      ⟨0, some [stubArticle]⟩ (by decide) (by decide)

/-- C9: a valid, non-expired cache entry holding the empty list is
rejected by the truthiness test, so the search issues a fresh upstream
feed request even though the entry exists. -/
theorem empty_cached_list_treated_as_miss (expiry : Nat) (query : String)
    (topic : Option String) (fromD toD : Date) (max_results : Nat)
    (resolve_urls : Bool) (feed : FeedOutcome)
    (redirect : String → RedirectOutcome) (now tm : Nat) (cache : Cache)
    (hentry : cache (generate_cache_key query topic fromD toD) =
      some ⟨tm, some []⟩)
    (hvalid : now - tm ≤ expiry) :
    get_from_cache expiry now cache
        (generate_cache_key query topic fromD toD) = some [] ∧
    (search_news expiry query topic fromD toD max_results resolve_urls
      true feed redirect now cache).feedCalls = 1 := by
  have hget : get_from_cache expiry now cache
      (generate_cache_key query topic fromD toD) = some [] := by
    unfold get_from_cache
    rw [hentry]
    dsimp only
    rw [if_neg (by omega)]
  refine ⟨hget, ?_⟩
  have hmiss : cacheLookup expiry true now cache
      (generate_cache_key query topic fromD toD) = [] := by
    unfold cacheLookup
    rw [hget]
    rfl
  rw [search_news_miss_eq expiry query topic fromD toD max_results
    resolve_urls true feed redirect now cache hmiss]
  exact search_fresh_feedCalls _ _ _ _ _ _ _ _ _ _

/-- Witness for C9: an empty-list entry written at time 0 and read at
time 100 (well inside the TTL) still leads to a feed request. -/
theorem empty_cached_list_treated_as_miss_witness :
    get_from_cache 3600 100 emptyEntryCache
        (generate_cache_key "q" none d0101 d0102) = some [] ∧
    (search_news 3600 "q" none d0101 d0102 10 false true
      (.response 200 []) redir0 100 emptyEntryCache).feedCalls = 1 :=
  empty_cached_list_treated_as_miss 3600 "q" none d0101 d0102 10 false
    (.response 200 []) redir0 100 0 emptyEntryCache (by decide)
    (by decide)

/-- C6: with an embedded url parameter in the query string, resolution
returns the embedded value (up to the next ampersand) with no network
call; otherwise it makes exactly one non-following GET and returns the
Location header on a 301/302 with a non-empty header, and the original
URL on a non-redirect status or an error. -/
theorem extract_real_url_spec (redirect : String → RedirectOutcome)
    (u : String) :
    (containsSub (urlQuery u) "url=" = true →
      extract_real_url redirect u =
        ((strSplit ((strSplit (urlQuery u) "url=").getD 1 "") "&").headD "",
          0)) ∧
    (containsSub (urlQuery u) "url=" = false →
      (extract_real_url redirect u).2 = 1 ∧
      (∀ s l, redirect u = .resp s (some l) → (s = 301 ∨ s = 302) →
        l ≠ "" → (extract_real_url redirect u).1 = l) ∧
      (∀ s loc, redirect u = .resp s loc → s ≠ 301 → s ≠ 302 →
        (extract_real_url redirect u).1 = u) ∧
      (redirect u = .err → (extract_real_url redirect u).1 = u)) := by
  constructor
  · intro h
    unfold extract_real_url
    rw [if_pos h]
  · intro h
    have hcond : ¬ (containsSub (urlQuery u) "url=" = true) := by
      rw [h]
      exact Bool.false_ne_true
    refine ⟨?_, ?_, ?_, ?_⟩
    · unfold extract_real_url
      rw [if_neg hcond]
      cases redirect u with
      | err => rfl
      | resp s loc =>
        dsimp only
        split
        · cases loc with
          | none => rfl
          | some l =>
            dsimp only
            split <;> rfl
        · rfl
    · intro s l hr hor hl
      unfold extract_real_url
      rw [if_neg hcond, hr]
      dsimp only
      rw [if_pos (by rcases hor with h' | h' <;> simp [h'])]
      rw [if_pos hl]
    · intro s loc hr h301 h302
      unfold extract_real_url
      rw [if_neg hcond, hr]
      dsimp only
      rw [if_neg (by simp [h301, h302])]
    · intro hr
      unfold extract_real_url
      rw [if_neg hcond, hr]

/-- Witness for C6: a link with an embedded url parameter resolves to
the embedded value with zero calls; one without resolves through one
302 response to its Location header. -/
theorem extract_real_url_spec_witness :
    extract_real_url redir302 uEmb = ("https://x.com", 0) ∧
    extract_real_url redir302 uNoParam = ("https://dest.example/a", 1) := by
  constructor
  · have h := (extract_real_url_spec redir302 uEmb).1 (by decide)
    rw [h]
    decide
  · have h := (extract_real_url_spec redir302 uNoParam).2 (by decide)
    have hfst := h.2.1 302 "https://dest.example/a" rfl (Or.inr rfl)
      (by decide)
    exact Prod.ext_iff.mpr ⟨hfst, h.1⟩

/-- C7: every feed-retrieval failure (network error, parse exception,
non-200 status) is caught and collapses to the empty list, and a search
that reaches the feed client on such a failure returns the empty result
list instead of propagating the error. -/
theorem feed_errors_yield_empty (feed : FeedOutcome)
    (h : feedRetrievalFails feed = true) :
    search_google_news feed = [] ∧
    ∀ (expiry : Nat) (query : String) (topic : Option String)
      (fromD toD : Date) (max_results : Nat)
      (resolve_urls use_cache : Bool)
      (redirect : String → RedirectOutcome) (now : Nat) (cache : Cache),
      cacheLookup expiry use_cache now cache
        (generate_cache_key query topic fromD toD) = [] →
      (search_news expiry query topic fromD toD max_results resolve_urls
        use_cache feed redirect now cache).results = [] := by
  have hempty : search_google_news feed = [] := by
    cases feed with
    | netError => rfl
    | parseError => rfl
    | response s entries =>
      unfold feedRetrievalFails at h
      simp only [decide_eq_true_eq] at h
      unfold search_google_news
      dsimp only
      rw [if_pos h]
  refine ⟨hempty, ?_⟩
  intro expiry query topic fromD toD max_results resolve_urls use_cache
    redirect now cache hmiss
  rw [search_news_miss_eq expiry query topic fromD toD max_results
    resolve_urls use_cache feed redirect now cache hmiss]
  cases resolve_urls <;>
    simp [search_fresh, hempty, filterByDate, sortByDateDesc,
      insertionSortStable, resolveBatch]

/-- Witness for C7: a network error inside feed retrieval yields zero
results from a cache-missing search rather than an exception. -/
theorem feed_errors_yield_empty_witness :
    search_google_news .netError = [] ∧
    (search_news 3600 "q" none d0101 d0102 10 false true .netError redir0
      0 emptyCache).results = [] := by
  have h := feed_errors_yield_empty .netError (by decide)
  exact ⟨h.1, h.2 3600 "q" none d0101 d0102 10 false true redir0 0
    emptyCache (by decide)⟩

/-- Counterexample for C4 as stated: with `maxResults = 0`, `useCache =
true` and a cache miss, the search does perform a cache write — the
entry for the computed key changes from absent to an empty stored
list. -/
theorem search_maxzero_writes_cache :
    (search_news 3600 "q" none d0101 d0102 0 false true
        (.response 200 []) redir0 5 emptyCache).cache
        (generate_cache_key "q" none d0101 d0102) =
      some ⟨5, some []⟩ ∧
    emptyCache (generate_cache_key "q" none d0101 d0102) = none := by
  exact ⟨by decide, rfl⟩

/-- C4 amended: `maxResults = 0` returns the empty sequence; on the
cache-miss path with `useCache = true` the empty list is nevertheless
written to the cache, overwriting the entry for the computed key. -/
theorem search_maxzero_empty_and_writes (expiry : Nat) (query : String)
    (topic : Option String) (fromD toD : Date)
    (resolve_urls use_cache : Bool) (feed : FeedOutcome)
    (redirect : String → RedirectOutcome) (now : Nat) (cache : Cache) :
    (search_news expiry query topic fromD toD 0 resolve_urls use_cache
      feed redirect now cache).results = [] ∧
    (use_cache = true →
      cacheLookup expiry use_cache now cache
        (generate_cache_key query topic fromD toD) = [] →
      (search_news expiry query topic fromD toD 0 resolve_urls use_cache
          feed redirect now cache).cache
          (generate_cache_key query topic fromD toD) =
        some ⟨now, some []⟩) := by
  by_cases hmiss : cacheLookup expiry use_cache now cache
      (generate_cache_key query topic fromD toD) = []
  · rw [search_news_miss_eq expiry query topic fromD toD 0 resolve_urls
      use_cache feed redirect now cache hmiss]
    have hres : (search_fresh (generate_cache_key query topic fromD toD)
        fromD toD 0 resolve_urls use_cache feed redirect now
        cache).results = [] := by
      have hlen := search_fresh_length_le
        (generate_cache_key query topic fromD toD) fromD toD 0
        resolve_urls use_cache feed redirect now cache
      exact List.length_eq_zero.mp (Nat.le_zero.mp hlen)
    refine ⟨hres, ?_⟩
    intro huc _
    subst huc
    have hw := search_fresh_cache_write
      (generate_cache_key query topic fromD toD) fromD toD 0 resolve_urls
      feed redirect now cache
    rw [hw, hres]
  · rw [search_news_hit_eq expiry query topic fromD toD 0 resolve_urls
      use_cache feed redirect now cache hmiss]
    exact ⟨by simp, fun _ h => absurd h hmiss⟩

/-- Witness for C4 amended: concrete zero-`maxResults` search returning
nothing and writing the empty list under its key. -/
theorem search_maxzero_empty_and_writes_witness :
    (search_news 3600 "q" none d0101 d0102 0 false true
      (.response 200 []) redir0 5 emptyCache).results = [] ∧
    (search_news 3600 "q" none d0101 d0102 0 false true
        (.response 200 []) redir0 5 emptyCache).cache
        (generate_cache_key "q" none d0101 d0102) =
      some ⟨5, some []⟩ := by
  have h := search_maxzero_empty_and_writes 3600 "q" none d0101 d0102
    false true (.response 200 []) redir0 5 emptyCache
  exact ⟨h.1, h.2 rfl (by decide)⟩

/-- C2: under a valid window, and assuming the cached list for the key
passed the same filter when it was written (the cache is only written by
search), every returned stub either has an unparseable publish date or a
parsed date inside the inclusive window — no successfully parsed
out-of-range date is ever returned. -/
theorem search_date_filter_sound (expiry : Nat) (query : String)
    (topic : Option String) (fromD toD : Date) (max_results : Nat)
    (resolve_urls use_cache : Bool) (feed : FeedOutcome)
    (redirect : String → RedirectOutcome) (now : Nat) (cache : Cache)
    (_hwin : Date.le fromD toD = true)
    (hcache : ∀ a ∈ cacheLookup expiry use_cache now cache
        (generate_cache_key query topic fromD toD),
      dateInRange fromD toD a.publish_date = true) :
    ∀ a ∈ (search_news expiry query topic fromD toD max_results
        resolve_urls use_cache feed redirect now cache).results,
      parsePubDate a.publish_date = none ∨
        ∃ d, parsePubDate a.publish_date = some d ∧
          Date.le fromD d = true ∧ Date.le d toD = true := by
  intro a ha
  rw [← dateInRange_iff]
  by_cases hmiss : cacheLookup expiry use_cache now cache
      (generate_cache_key query topic fromD toD) = []
  · rw [search_news_miss_eq expiry query topic fromD toD max_results
      resolve_urls use_cache feed redirect now cache hmiss] at ha
    exact search_fresh_dateOK _ _ _ _ _ _ _ _ _ _ a ha
  · rw [search_news_hit_eq expiry query topic fromD toD max_results
      resolve_urls use_cache feed redirect now cache hmiss] at ha
    exact hcache a (List.take_subset _ _ ha)

/-- Witness for C2: the one stub returned for a January 2025 window has
its date parsed in range (or unparseable), per the theorem. -/
theorem search_date_filter_sound_witness :
    parsePubDate (normalizeEntry entryJan10).publish_date = none ∨
      ∃ d, parsePubDate (normalizeEntry entryJan10).publish_date =
          some d ∧
        Date.le d0101 d = true ∧ Date.le d d0131 = true := by
  have h := search_date_filter_sound 3600 "q" none d0101 d0131 10 false
    true (.response 200 [entryJan10]) redir0 0 emptyCache (by decide)
    (by
      intro a ha
      have hempty : cacheLookup 3600 true 0 emptyCache
          (generate_cache_key "q" none d0101 d0131) = [] := by decide
      rw [hempty] at ha
      exact absurd ha (List.not_mem_nil a))
  exact h (normalizeEntry entryJan10) (by decide)

/-- Counterexample for C1 as stated: with an upstream feed returning
zero entries, the first call caches the empty list; the second call with
identical criteria and a valid, non-expired entry still issues a feed
request, so the pair makes two upstream feed requests, not one. -/
theorem search_cache_empty_result_refetches :
    cexSearch1.feedCalls = 1 ∧
    get_from_cache 3600 0 cexSearch1.cache
        (generate_cache_key "q" none d0101 d0102) = some [] ∧
    cexSearch2.feedCalls = 1 ∧
    cexSearch1.feedCalls + cexSearch2.feedCalls = 2 := by
  refine ⟨by decide, by decide, by decide, by decide⟩

/-- C1 amended: two searches with identical criteria and `useCache =
true`, where the first misses the cache, the second runs before the TTL
expires, and the first call's result list is non-empty (an empty result
is cached but rejected by the truthiness test on read), make exactly one
upstream feed request between them; the second call makes no network
call at all and returns the identical stub sequence. -/
theorem search_cache_idempotent_nonempty (expiry : Nat) (query : String)
    (topic : Option String) (fromD toD : Date) (max_results : Nat)
    (resolve_urls : Bool) (feed feed2 : FeedOutcome)
    (redirect redirect2 : String → RedirectOutcome) (t1 t2 : Nat)
    (cache0 : Cache)
    (hmiss : cacheLookup expiry true t1 cache0
      (generate_cache_key query topic fromD toD) = [])
    (httl : t2 - t1 ≤ expiry)
    (hne : (search_news expiry query topic fromD toD max_results
      resolve_urls true feed redirect t1 cache0).results ≠ []) :
    (search_news expiry query topic fromD toD max_results resolve_urls
      true feed redirect t1 cache0).feedCalls = 1 ∧
    (search_news expiry query topic fromD toD max_results resolve_urls
      true feed2 redirect2 t2
      (search_news expiry query topic fromD toD max_results resolve_urls
        true feed redirect t1 cache0).cache).feedCalls = 0 ∧
    (search_news expiry query topic fromD toD max_results resolve_urls
      true feed2 redirect2 t2
      (search_news expiry query topic fromD toD max_results resolve_urls
        true feed redirect t1 cache0).cache).resolveCalls = 0 ∧
    (search_news expiry query topic fromD toD max_results resolve_urls
        true feed2 redirect2 t2
        (search_news expiry query topic fromD toD max_results
          resolve_urls true feed redirect t1 cache0).cache).results =
      (search_news expiry query topic fromD toD max_results resolve_urls
        true feed redirect t1 cache0).results := by
  have h1 := search_news_miss_eq expiry query topic fromD toD max_results
    resolve_urls true feed redirect t1 cache0 hmiss
  rw [h1] at hne ⊢
  have hw := search_fresh_cache_write
    (generate_cache_key query topic fromD toD) fromD toD max_results
    resolve_urls feed redirect t1 cache0
  have hlook : cacheLookup expiry true t2
      (search_fresh (generate_cache_key query topic fromD toD) fromD toD
        max_results resolve_urls true feed redirect t1 cache0).cache
      (generate_cache_key query topic fromD toD) =
      (search_fresh (generate_cache_key query topic fromD toD) fromD toD
        max_results resolve_urls true feed redirect t1 cache0).results := by
    unfold cacheLookup get_from_cache
    rw [if_pos rfl, hw]
    dsimp only
    rw [if_neg (by omega)]
    rfl
  have h2 := search_news_hit_eq expiry query topic fromD toD max_results
    resolve_urls true feed2 redirect2 t2
    (search_fresh (generate_cache_key query topic fromD toD) fromD toD
      max_results resolve_urls true feed redirect t1 cache0).cache
    (by rw [hlook]; exact hne)
  rw [h2]
  have htake : ((search_fresh (generate_cache_key query topic fromD toD)
      fromD toD max_results resolve_urls true feed redirect t1
      cache0).results).take max_results =
      (search_fresh (generate_cache_key query topic fromD toD) fromD toD
        max_results resolve_urls true feed redirect t1 cache0).results :=
    List.take_of_length_le (search_fresh_length_le _ _ _ _ _ _ _ _ _ _)
  exact ⟨rfl, rfl, rfl, by rw [hlook, htake]⟩

/-- Witness for C1 amended: a one-entry feed, an empty cache, and a
second call 100 seconds later: one feed request total, none on the
second call, identical results. -/
theorem search_cache_idempotent_nonempty_witness :
    witSearch1.feedCalls = 1 ∧ witSearch2.feedCalls = 0 ∧
      witSearch2.resolveCalls = 0 ∧
      witSearch2.results = witSearch1.results := by
  have h := search_cache_idempotent_nonempty 3600 "q" none d0101 d0131 10
    false (.response 200 [entryJan10]) (.response 200 [entryJan10])
    redir0 redir0 0 100 emptyCache (by decide) (by decide) (by decide)
  exact h

/-- C3: with `retryCount = 2`, a URL's article appears in the fetcher's
result sequence exactly when some attempt among the three succeeds under
the retry rules (HTTP 200 whose content is long enough, or the final
attempt's HTTP 200 of any length); a URL whose every attempt fails is
excluded rather than null-padded. -/
theorem scrape_retry_membership (oracles : List (Nat → AttemptOutcome))
    (o : Nat → AttemptOutcome) (h : o ∈ oracles) :
    (∃ article, scrape_url 2 o = some article ∧
        article ∈ scrape_urls 2 oracles) ↔
      ∃ a, a ≤ 2 ∧ attemptSucceedsSpec 2 o a := by
  have hiff := scrapeGo_isSome_iff 2 o 3 0 rfl
  constructor
  · rintro ⟨article, hs, -⟩
    have hsome : (scrape_url 2 o).isSome = true := by
      rw [scrape_url, show scrapeGo 2 o 0 (2 + 1) = some article from hs]
      rfl
    obtain ⟨i, -, h2, hsucc⟩ := hiff.mp hsome
    exact ⟨i, h2, hsucc⟩
  · rintro ⟨a, ha, hsucc⟩
    have hsome : (scrape_url 2 o).isSome = true :=
      hiff.mpr ⟨a, Nat.zero_le _, ha, hsucc⟩
    obtain ⟨article, hart⟩ := Option.isSome_iff_exists.mp hsome
    refine ⟨article, hart, ?_⟩
    unfold scrape_urls
    exact List.mem_filterMap.mpr
      ⟨some article, List.mem_map.mpr ⟨o, h, by rw [hart]⟩, rfl⟩

/-- Witness for C3: an oracle answering 200 with short content on every
attempt succeeds on the final attempt, so its article is in the batch
result. -/
theorem scrape_retry_membership_witness :
    ∃ article, scrape_url 2 witOracle = some article ∧
      article ∈ scrape_urls 2 [witOracle] :=
  (scrape_retry_membership [witOracle] witOracle
      (List.mem_singleton.mpr rfl)).mpr
    ⟨2, Nat.le_refl 2, witArticle, rfl, Or.inr rfl⟩

end DataProc
